import Mathlib

/-!
Verification of `screenpipe-vision/src/capture_screenshot_by_window.rs`.

Shallow embedding: Rust strings become `String`, `HashSet` becomes
`List String` (only membership / any-style queries are used, so the set
structure is irrelevant to the observable behaviour), the `xcap` binding is
modelled by attaching the pixel-capture outcome of each window to its enumeration
record, and the `tokio::task::spawn_blocking` dispatch is elided (the loop in
the source is sequential: each capture is awaited before the next begins).
The `Option::unwrap` call inside the capture loop can panic; a panic is
modelled by the whole call returning `none`.
-/

namespace Screenpipe

/-- Does `pat` occur at the head of the second list? -/
def listPrefixOf : List Char → List Char → Bool
  | [], _ => true
  | _ :: _, [] => false
  | a :: as, b :: bs => a == b && listPrefixOf as bs

/-- Does `pat` occur anywhere in the second list? -/
def listInfixOf (pat : List Char) : List Char → Bool
  | [] => listPrefixOf pat []
  | c :: rest => listPrefixOf pat (c :: rest) || listInfixOf pat rest

/-- Model of Rust `str::contains(pat)` (substring containment). -/
def strContains (s pat : String) : Bool :=
  listInfixOf pat.toList s.toList

/-- Model of Rust `str::to_lowercase()` (per-character lowercasing). -/
def toLowercase (s : String) : String := ⟨s.data.map Char.toLower⟩

/-- Structure `WindowFilters` from the source: two sets of lowercased strings. -/
structure WindowFilters where
  ignore_set : List String
  include_set : List String
  deriving Repr

/-- Constructor `WindowFilters::new`: lowercases both input lists. -/
def WindowFilters.new (ignore_list include_list : List String) : WindowFilters :=
  { ignore_set := ignore_list.map toLowercase
    include_set := include_list.map toLowercase }

/-- Method `WindowFilters::is_valid`, branch for branch from the source:
an empty include set returns true immediately; then the include list is
checked; then the ignore list (whose branch returns false); the final
fallthrough also returns false. -/
def WindowFilters.is_valid (self : WindowFilters) (app_name title : String) : Bool :=
  let app_name_lower := toLowercase app_name
  let title_lower := toLowercase title
  if self.include_set.isEmpty then
    true
  else if self.include_set.any
      (fun inc => strContains app_name_lower inc || strContains title_lower inc) then
    true
  else if !self.ignore_set.isEmpty && self.ignore_set.any
      (fun ig => strContains app_name_lower ig || strContains title_lower ig) then
    false
  else
    false

/-- The platform-selected pair `SKIP_APPS` / `SKIP_TITLES` (one pair per
`cfg(target_os)` variant in the source; exactly one is linked per build). -/
structure SkipRegistry where
  skip_apps : List String
  skip_titles : List String
  deriving Repr

/-- Constants `SKIP_APPS` / `SKIP_TITLES` for `target_os = "macos"`. -/
def SKIP_REGISTRY_MACOS : SkipRegistry :=
  { skip_apps :=
      ["Window Server", "SystemUIServer", "ControlCenter", "Dock",
       "NotificationCenter", "loginwindow", "WindowManager", "Contexts",
       "Screenshot"]
    skip_titles :=
      ["Item-0", "App Icon Window", "Dock", "NowPlaying", "FocusModes",
       "Shortcuts", "AudioVideoModule", "Clock", "WiFi", "Battery",
       "BentoBox", "Menu Bar", "Notification Center", "Control Center",
       "Spotlight", "Mission Control", "Desktop", "Screen Sharing",
       "Touch Bar", "Status Bar", "Menu Extra", "System Settings"] }

/-- Constants `SKIP_APPS` / `SKIP_TITLES` for `target_os = "windows"`. -/
def SKIP_REGISTRY_WINDOWS : SkipRegistry :=
  { skip_apps :=
      ["Windows Shell Experience Host", "Microsoft Text Input Application",
       "Windows Explorer", "Program Manager", "Microsoft Store", "Search",
       "TaskBar"]
    skip_titles :=
      ["Program Manager", "Windows Input Experience",
       "Microsoft Text Input Application", "Task View", "Start",
       "System Tray", "Notification Area", "Action Center", "Task Bar",
       "Desktop"] }

/-- Constants `SKIP_APPS` / `SKIP_TITLES` for `target_os = "linux"`. -/
def SKIP_REGISTRY_LINUX : SkipRegistry :=
  { skip_apps :=
      ["Gnome-shell", "Plasma", "Xfdesktop", "Polybar", "i3bar", "Plank",
       "Dock"]
    skip_titles :=
      ["Desktop", "Panel", "Top Bar", "Status Bar", "Dock", "Dashboard",
       "Activities", "System Tray", "Notification Area"] }

/-- The observable fields of an `xcap::Window` used by this module:
`app_name()`, `title()`, `is_focused()` and `current_monitor().id()`. -/
structure Window where
  app_name : String
  title : String
  is_focused : Bool
  current_monitor_id : Nat
  deriving Repr

/-- The observable fields of a `SafeMonitor`: `id()` and `name()`. -/
structure SafeMonitor where
  id : Nat
  name : String
  deriving Repr

/-- Function `is_valid_window` from the source: focus policy first (when
`capture_unfocused_windows` is false the window must sit on the target
monitor and report focus, else it is rejected at once), then the exact-match
skip-registry lookup, then the user filters. -/
def is_valid_window (reg : SkipRegistry) (window : Window) (monitor : SafeMonitor)
    (filters : WindowFilters) (capture_unfocused_windows : Bool) : Bool :=
  if !capture_unfocused_windows
      && !(window.current_monitor_id == monitor.id && window.is_focused) then
    false
  else if reg.skip_apps.contains window.app_name
      || reg.skip_titles.contains window.title then
    false
  else
    filters.is_valid window.app_name window.title

/-- The raw `(width, height, bytes)` buffer returned by
`Window::capture_image()` (an `RgbaImage`). -/
structure RgbaBuffer where
  width : Nat
  height : Nat
  raw : List Nat
  deriving Repr

/-- A decoded RGBA image (`image::ImageBuffer` wrapped in
`DynamicImage::ImageRgba8`). -/
structure Image where
  width : Nat
  height : Nat
  data : List Nat
  deriving Repr

/-- Decoder `image::ImageBuffer::from_raw`: succeeds exactly when the container holds
at least `width * height * 4` bytes (4 = RGBA channel count), else `none`. -/
def ImageBuffer.from_raw (width height : Nat) (raw : List Nat) : Option Image :=
  if width * height * 4 ≤ raw.length then
    some { width := width, height := height, data := raw }
  else
    none

/-- Structure `CapturedWindow` from the source. -/
structure CapturedWindow where
  image : Image
  app_name : String
  window_name : String
  is_focused : Bool
  deriving Repr

/-- The `CaptureError` enum from the source (`XCapError` carries the message
of the binding error). -/
inductive CaptureError where
  | NoWindows : CaptureError
  | XCapError (e : String) : CaptureError
  deriving Repr, DecidableEq, BEq

/-- One record of the tuple extracted per enumerated window —
`(app_name, title, is_focused, window)` — together with the outcome the
opaque binding would produce for `window.capture_image()`. -/
structure WindowData where
  window : Window
  capture_result : Except String RgbaBuffer

/-- The per-window loop of `capture_all_visible_windows`: invalid windows are
skipped; a failed capture is logged and skipped; a successful capture is
decoded with `from_raw` and `.unwrap()` — a decode failure is a panic,
modelled as `none` — and appended in order. -/
def capture_loop (monitor : SafeMonitor) (filters : WindowFilters)
    (capture_unfocused_windows : Bool) (reg : SkipRegistry) :
    List WindowData → Option (List CapturedWindow)
  | [] => some []
  | wd :: rest =>
    if !(is_valid_window reg wd.window monitor filters capture_unfocused_windows) then
      capture_loop monitor filters capture_unfocused_windows reg rest
    else
      match wd.capture_result with
      | .ok buffer =>
        match ImageBuffer.from_raw buffer.width buffer.height buffer.raw with
        | some img =>
          (capture_loop monitor filters capture_unfocused_windows reg rest).map
            (fun tail =>
              { image := img
                app_name := wd.window.app_name
                window_name := wd.window.title
                is_focused := wd.window.is_focused } :: tail)
        | none => none
      | .error _ => capture_loop monitor filters capture_unfocused_windows reg rest

/-- Function `capture_all_visible_windows`: enumeration failure propagates as a typed
error; an empty enumeration fails with `CaptureError.NoWindows`; otherwise the
sequential per-window loop runs.  The outer `Option` is `none` exactly when
the loop panics on `.unwrap()`. -/
def capture_all_visible_windows (monitor : SafeMonitor) (filters : WindowFilters)
    (capture_unfocused_windows : Bool) (reg : SkipRegistry)
    (enumeration : Except String (List WindowData)) :
    Option (Except CaptureError (List CapturedWindow)) :=
  match enumeration with
  | .error e => some (.error (.XCapError e))
  | .ok windows_data =>
    if windows_data.isEmpty then
      some (.error .NoWindows)
    else
      (capture_loop monitor filters capture_unfocused_windows reg windows_data).map .ok

/-- The successful-capture projection used to state the ordering guarantee:
the `CapturedWindow` a valid window with a well-formed successful capture
contributes, `none` for every other window. -/
def expected_capture (monitor : SafeMonitor) (filters : WindowFilters)
    (capture_unfocused_windows : Bool) (reg : SkipRegistry) (wd : WindowData) :
    Option CapturedWindow :=
  if !(is_valid_window reg wd.window monitor filters capture_unfocused_windows) then
    none
  else
    match wd.capture_result with
    | .ok buffer =>
      match ImageBuffer.from_raw buffer.width buffer.height buffer.raw with
      | some img =>
        some { image := img
               app_name := wd.window.app_name
               window_name := wd.window.title
               is_focused := wd.window.is_focused }
      | none => none
    | .error _ => none

/-- Well-formedness of a capture outcome: a successful capture must carry at
least `width * height * 4` bytes, so that `from_raw` (and hence the
`.unwrap()` in the loop) cannot fail; failed captures are vacuously fine. -/
def buffer_well_formed : Except String RgbaBuffer → Bool
  | .ok b => decide (b.width * b.height * 4 ≤ b.raw.length)
  | .error _ => true

/-- A concrete three-window enumeration in which the second capture fails at
the binding level while the first and third succeed. -/
def c6_batch : List WindowData :=
  [ { window := { app_name := "App1", title := "T1", is_focused := true,
                  current_monitor_id := 1 },
      capture_result := .ok { width := 1, height := 1, raw := [0, 0, 0, 0] } },
    { window := { app_name := "App2", title := "T2", is_focused := false,
                  current_monitor_id := 1 },
      capture_result := .error "capture failed" },
    { window := { app_name := "App3", title := "T3", is_focused := false,
                  current_monitor_id := 1 },
      capture_result := .ok { width := 1, height := 1, raw := [9, 9, 9, 9] } } ]

end Screenpipe

namespace Screenpipe

/-- Unfolding of `WindowFilters.is_valid`: because both the ignore branch and
the final fallthrough return false, the verdict is exactly
"include set empty, or include set matched". -/
theorem WindowFilters.is_valid_eq (self : WindowFilters) (app_name title : String) :
    self.is_valid app_name title
      = (self.include_set.isEmpty
         || self.include_set.any (fun inc =>
              strContains (toLowercase app_name) inc
              || strContains (toLowercase title) inc)) := by
  simp only [WindowFilters.is_valid]
  rcases h1 : self.include_set.isEmpty <;>
    rcases h2 : self.include_set.any (fun inc =>
        strContains (toLowercase app_name) inc
        || strContains (toLowercase title) inc) <;>
    simp [h1, h2]

/-- Membership through `List.contains` on strings is exact equality. -/
theorem contains_eq_decide_mem (l : List String) (a : String) :
    l.contains a = decide (a ∈ l) := by
  by_cases h : a ∈ l <;> simp [h]

end Screenpipe


namespace Screenpipe

/-- C1, counterexample: with `ignore_list = ["dock"]` and an empty include
list, `is_valid "Dock" ""` returns true, not false as the claim states — the
empty include set makes the function return true before the ignore set is
ever consulted. -/
theorem C1_counterexample :
    (WindowFilters.new ["dock"] []).is_valid "Dock" "" = true := by decide

/-- C1, amended: with `ignore_list = ["dock"]` and `include_list = []`,
`is_valid` returns true for every title both for app name "Dock" and for app
name "Notes"; the ignore list has no effect because the include set is
empty.  -/
theorem C1_amended_ignore_list_inert (title : String) :
    (WindowFilters.new ["dock"] []).is_valid "Dock" title = true
    ∧ (WindowFilters.new ["dock"] []).is_valid "Notes" title = true := by
  constructor <;> simp [WindowFilters.is_valid_eq, WindowFilters.new]

/-- C3: two filter configurations with the same include list but arbitrary
different ignore lists give the same verdict on every input — `is_valid`
never depends on the ignore set. -/
theorem C3_ignore_set_irrelevant (ig1 ig2 inc : List String) (app_name title : String) :
    (WindowFilters.new ig1 inc).is_valid app_name title
      = (WindowFilters.new ig2 inc).is_valid app_name title := by
  simp [WindowFilters.is_valid_eq, WindowFilters.new]

/-- C4: when the include set is non-empty, `is_valid` returns true exactly
when the lowercased app name or title contains some include entry as a
substring — so a window matching both lists is valid (include wins over
ignore, which is quantified arbitrarily here) and a window matching neither
list is invalid (default-deny). -/
theorem C4_include_semantics (ignore_list include_list : List String)
    (app_name title : String)
    (h : (WindowFilters.new ignore_list include_list).include_set.isEmpty = false) :
    (WindowFilters.new ignore_list include_list).is_valid app_name title
      = (WindowFilters.new ignore_list include_list).include_set.any
          (fun inc => strContains (toLowercase app_name) inc
            || strContains (toLowercase title) inc) := by
  simp [WindowFilters.is_valid_eq, h]

/-- C4, witness: `include_list = ["finder"]` is non-empty, and on
(`"Finder"`, `"Desktop"`) the verdict coincides with the include-set
substring match (both are true). -/
theorem C4_witness :
    (WindowFilters.new [] ["finder"]).include_set.isEmpty = false
    ∧ (WindowFilters.new [] ["finder"]).is_valid "Finder" "Desktop"
        = (WindowFilters.new [] ["finder"]).include_set.any
            (fun inc => strContains (toLowercase "Finder") inc
              || strContains (toLowercase "Desktop") inc) :=
  ⟨by decide, C4_include_semantics [] ["finder"] "Finder" "Desktop" (by decide)⟩

/-- C9: with both lists empty, `is_valid` returns true on every input. -/
theorem C9_empty_filters_always_valid (app_name title : String) :
    (WindowFilters.new [] []).is_valid app_name title = true := by
  simp [WindowFilters.is_valid_eq, WindowFilters.new]

/-- C7: skip-registry membership is exact string equality, not substring
containment — for every string, `contains` on the skip lists decides plain
list membership; in particular "Dockington" is not skipped on any platform
even though "Dock" is a registry entry on macOS and Linux, while the
substring matcher used by `WindowFilters` with `ignore_list = ["dock"]` does
match "Dockington". -/
theorem C7_skip_registry_exact_match :
    (∀ a : String, SKIP_REGISTRY_MACOS.skip_apps.contains a
        = decide (a ∈ SKIP_REGISTRY_MACOS.skip_apps))
    ∧ (∀ t : String, SKIP_REGISTRY_MACOS.skip_titles.contains t
        = decide (t ∈ SKIP_REGISTRY_MACOS.skip_titles))
    ∧ SKIP_REGISTRY_MACOS.skip_apps.contains "Dockington" = false
    ∧ SKIP_REGISTRY_LINUX.skip_apps.contains "Dockington" = false
    ∧ SKIP_REGISTRY_WINDOWS.skip_apps.contains "Dockington" = false
    ∧ SKIP_REGISTRY_MACOS.skip_apps.contains "Dock" = true
    ∧ SKIP_REGISTRY_LINUX.skip_apps.contains "Dock" = true
    ∧ strContains (toLowercase "Dockington") "dock" = true :=
  ⟨fun a => contains_eq_decide_mem _ a, fun t => contains_eq_decide_mem _ t,
   by decide, by decide, by decide, by decide, by decide, by decide⟩

end Screenpipe

namespace Screenpipe

/-- C8: when `capture_unfocused_windows` is false and the focus conjunction
(window on the target monitor AND focused) fails, `is_valid_window` returns
false for every skip registry and every filter configuration — the window is
rejected before the registry or the filters are consulted. The contrapositive
gives the only-if direction: a true verdict requires the conjunction. -/
theorem C8_focus_policy_rejects_first (window : Window) (monitor : SafeMonitor)
    (h : (window.current_monitor_id == monitor.id && window.is_focused) = false) :
    ∀ (reg : SkipRegistry) (filters : WindowFilters),
      is_valid_window reg window monitor filters false = false := by
  intro reg filters
  simp [is_valid_window, h]

/-- C8, witness: a focused window on monitor 1 checked against monitor 2 is
rejected under the macOS registry and the empty filters. -/
theorem C8_witness :
    ((Window.mk "App1" "T1" true 1).current_monitor_id == (SafeMonitor.mk 2 "m2").id
      && (Window.mk "App1" "T1" true 1).is_focused) = false
    ∧ is_valid_window SKIP_REGISTRY_MACOS (Window.mk "App1" "T1" true 1)
        (SafeMonitor.mk 2 "m2") (WindowFilters.new [] []) false = false :=
  ⟨by decide,
   C8_focus_policy_rejects_first (Window.mk "App1" "T1" true 1) (SafeMonitor.mk 2 "m2")
     (by decide) SKIP_REGISTRY_MACOS (WindowFilters.new [] [])⟩

/-- C10: with `capture_unfocused_windows` true the verdict of
`is_valid_window` does not depend on the monitor argument, and equals the
conjunction of not being in the skip registry and passing the user
filters. -/
theorem C10_unfocused_mode_monitor_irrelevant (reg : SkipRegistry) (window : Window)
    (m1 m2 : SafeMonitor) (filters : WindowFilters) :
    is_valid_window reg window m1 filters true = is_valid_window reg window m2 filters true
    ∧ is_valid_window reg window m1 filters true
      = (!(reg.skip_apps.contains window.app_name
            || reg.skip_titles.contains window.title)
         && filters.is_valid window.app_name window.title) := by
  constructor
  · simp [is_valid_window]
  · rcases hc1 : reg.skip_apps.contains window.app_name <;>
    rcases hc2 : reg.skip_titles.contains window.title <;>
    rcases hv : filters.is_valid window.app_name window.title <;>
      simp only [is_valid_window, hc1, hc2, hv] <;> simp

/-- C5: when enumeration succeeds with zero windows, the call returns the
typed `NoWindows` error (it does not panic: the result is `some`), a kind
distinct from `XCapError`; an enumeration binding failure instead surfaces
as `XCapError`, so the two outcomes are distinguishable by the caller. -/
theorem C5_no_windows_found (monitor : SafeMonitor) (filters : WindowFilters)
    (capture_unfocused_windows : Bool) (reg : SkipRegistry) (e : String) :
    capture_all_visible_windows monitor filters capture_unfocused_windows reg (.ok [])
      = some (.error .NoWindows)
    ∧ (CaptureError.NoWindows == CaptureError.XCapError e) = false
    ∧ capture_all_visible_windows monitor filters capture_unfocused_windows reg (.error e)
      = some (.error (.XCapError e)) :=
  ⟨rfl, rfl, rfl⟩

end Screenpipe

namespace Screenpipe

/-- Unfolding of `capture_loop`: as long as every successful capture in the
batch carries a well-formed buffer (so that the `.unwrap()` cannot panic),
the loop returns exactly the in-order `filterMap` of the per-window expected
captures. -/
theorem capture_loop_eq (monitor : SafeMonitor) (filters : WindowFilters)
    (capture_unfocused_windows : Bool) (reg : SkipRegistry) (ws : List WindowData)
    (h : ws.all (fun wd => buffer_well_formed wd.capture_result) = true) :
    capture_loop monitor filters capture_unfocused_windows reg ws
      = some (ws.filterMap
          (expected_capture monitor filters capture_unfocused_windows reg)) := by
  induction ws with
  | nil => rfl
  | cons wd rest ih =>
    rw [List.all_cons, Bool.and_eq_true] at h
    obtain ⟨hwd, hrest⟩ := h
    have ihr := ih hrest
    rcases hv : is_valid_window reg wd.window monitor filters capture_unfocused_windows
    · simp [capture_loop, expected_capture, hv, List.filterMap_cons, ihr]
    · rcases hc : wd.capture_result with e | buffer
      · simp [capture_loop, expected_capture, hv, hc, List.filterMap_cons, ihr]
      · have hlen : buffer.width * buffer.height * 4 ≤ buffer.raw.length := by
          rw [hc] at hwd
          simpa [buffer_well_formed] using hwd
        have hraw : ImageBuffer.from_raw buffer.width buffer.height buffer.raw
            = some { width := buffer.width, height := buffer.height,
                     data := buffer.raw } := by
          simp [ImageBuffer.from_raw, hlen]
        simp [capture_loop, expected_capture, hv, hc, hraw, List.filterMap_cons, ihr]

/-- C6: for a non-empty enumerated batch whose successful captures all carry
well-formed buffers, the call returns (without a batch-level error) exactly
one `CapturedWindow` per valid window whose capture succeeded, in the same
relative order as the enumeration — windows whose capture failed are
excluded without aborting the batch. -/
theorem C6_ordering_and_failure_isolation (monitor : SafeMonitor)
    (filters : WindowFilters) (capture_unfocused_windows : Bool)
    (reg : SkipRegistry) (ws : List WindowData)
    (hne : ws.isEmpty = false)
    (hbuf : ws.all (fun wd => buffer_well_formed wd.capture_result) = true) :
    capture_all_visible_windows monitor filters capture_unfocused_windows reg (.ok ws)
      = some (.ok (ws.filterMap
          (expected_capture monitor filters capture_unfocused_windows reg))) := by
  simp [capture_all_visible_windows, hne,
    capture_loop_eq monitor filters capture_unfocused_windows reg ws hbuf]

/-- C6, witness: in the concrete three-window batch `c6_batch` (second
capture fails, both hypotheses hold) the result has exactly the two
successful windows, in enumeration order. -/
theorem C6_witness :
    c6_batch.isEmpty = false
    ∧ c6_batch.all (fun wd => buffer_well_formed wd.capture_result) = true
    ∧ capture_all_visible_windows (SafeMonitor.mk 1 "m") (WindowFilters.new [] [])
        true SKIP_REGISTRY_MACOS (.ok c6_batch)
      = some (.ok
          [ { image := { width := 1, height := 1, data := [0, 0, 0, 0] },
              app_name := "App1", window_name := "T1", is_focused := true },
            { image := { width := 1, height := 1, data := [9, 9, 9, 9] },
              app_name := "App3", window_name := "T3", is_focused := false } ]) :=
  ⟨rfl, by decide,
   (C6_ordering_and_failure_isolation (SafeMonitor.mk 1 "m") (WindowFilters.new [] [])
      true SKIP_REGISTRY_MACOS c6_batch rfl (by decide)).trans rfl⟩

/-- C2: a successful per-window capture whose raw buffer is shorter than
`width * height * 4` makes the whole call panic (modelled as `none`): the
result is neither a typed recoverable error nor a list excluding only the
offending window, and the sibling window is lost with it. This contradicts
the spec, which requires a typed per-window recoverable error here. -/
theorem C2_panic_on_short_buffer :
    capture_all_visible_windows (SafeMonitor.mk 1 "m") (WindowFilters.new [] [])
      true SKIP_REGISTRY_MACOS
      (.ok [ { window := { app_name := "App1", title := "T1", is_focused := true,
                           current_monitor_id := 1 },
               capture_result := .ok { width := 1, height := 1, raw := [0, 0, 0] } },
             { window := { app_name := "App2", title := "T2", is_focused := false,
                           current_monitor_id := 1 },
               capture_result := .ok { width := 1, height := 1,
                                       raw := [9, 9, 9, 9] } } ])
      = none := rfl

end Screenpipe
